import Mathlib

/-!
# Verification of the Lo-Fi YouTube automation pipeline

Shallow embedding of the repository's Python sources:

* `src/suno.py`    — CometAPI (Suno) music generation: submit + poll loop,
  the `retry` decorator semantics, audio-URL extraction.
* `src/main.py`    — `LoFiAutomation`: run identifier, duplicate check,
  `run_pipeline` orchestration, `run_multiple` batch runner.
* `src/wake_lock.py` — `WakeLock` state machine.

External effects (HTTP calls, file writes, ffmpeg, sleeps) are modelled by
oracles: each run receives the outcomes that the external world would have
produced, and the embedding reproduces the source's control flow on them.
-/

namespace YtAuto

/-! ## Suno / CometAPI model (`src/suno.py`)

`SunoAPI.generate_music` submits a task (`POST /suno/submit/music`), then
polls `GET /suno/fetch/{task_id}` up to `max_attempts` times, sleeping
`poll_interval` seconds before each fetch. -/

/-- Response of the submit endpoint as used by the code:
`result.get('code')` and `result.get('data')` (the task id).
`data = none` models a missing key. -/
structure SubmitResponse where
  code : String
  data : Option String
deriving Repr, DecidableEq

/-- One element of a `clips` / `data` array in a fetch payload
(only `audio_url` is read by the code). -/
structure FetchClip where
  audio_url : Option String
deriving Repr, DecidableEq

/-- The `data` dictionary of a fetch response. `status` models
`data.get('status', '')` (a missing key reads as `""`); the remaining
fields model the keys probed by `generate_and_download`
(`clips`, `audio_url`, `data`), `none` meaning the key is absent. -/
structure FetchData where
  status : String
  error_message : Option String
  clips : Option (List FetchClip)
  audio_url : Option String
  dataArr : Option (List FetchClip)
deriving Repr, DecidableEq

/-- Response of the fetch endpoint: `fetch_data.get('code')` and
`fetch_data.get('data')`. -/
structure FetchResponse where
  code : String
  data : Option FetchData
deriving Repr, DecidableEq

/-- Errors raised inside `src/suno.py`, named after the spec's taxonomy:
`submissionError` is the `ValueError("Task submission failed: ...")` at
suno.py:79, `generationError` the `ValueError("Music generation failed: ...")`
at suno.py:110, `pollTimeout` the `TimeoutError` at suno.py:116, and
`malformedResult` the `ValueError("No audio URL in response data")` at
suno.py:184. -/
inductive SunoError where
  | submissionError (msg : String)
  | generationError (msg : String)
  | pollTimeout (msg : String)
  | malformedResult (msg : String)
deriving Repr, DecidableEq

/-- Python truthiness of an optional string (`not result.get('data')`):
falsy when the key is missing or the string is empty. -/
def strTruthy : Option String → Bool
  | none => false
  | some s => !(s == "")

/-- `max_attempts = 60` (suno.py:86). -/
def max_attempts : Nat := 60

/-- `time.sleep(5)` between polls (suno.py:91). -/
def poll_interval : Nat := 5

/-- One iteration of the poll loop body (suno.py:100-114) applied to a fetch
response: `some (ok d)` returns `d` (status `complete`), `some (error e)`
raises (status `error`), and `none` means the loop continues polling
(any other status, or `code ≠ 'success'`, or falsy `data`). -/
def pollStep (resp : FetchResponse) : Option (Except SunoError FetchData) :=
  match resp.data with
  | some d =>
    if resp.code = "success" then
      if d.status = "complete" then some (.ok d)
      else if d.status = "error" then
        some (.error (.generationError
          ("Music generation failed: " ++ d.error_message.getD "Unknown error")))
      else none
    else none
  | none => none

/-- The poll loop (`while attempt < max_attempts`, suno.py:89-116) from
attempt number `a` with `r` attempts remaining, over an oracle `fetches`
giving the response of the `k`-th fetch. Returns the loop's result and
the number of fetches performed; exhausting the budget raises the
`TimeoutError` of suno.py:116. -/
def pollFrom (fetches : Nat → FetchResponse) : Nat → Nat → Except SunoError FetchData × Nat
  | _, 0 => (.error (.pollTimeout "Music generation timed out after 5 minutes"), 0)
  | a, r + 1 =>
    match pollStep (fetches a) with
    | some res => (res, 1)
    | none =>
      let rest := pollFrom fetches (a + 1) r
      (rest.1, rest.2 + 1)

/-- One (undecorated) invocation of `SunoAPI.generate_music` (suno.py:28-120):
submit the task, raise the submission `ValueError` unless
`code == 'success'` and `data` is truthy (suno.py:78), otherwise poll.
Returns the result together with the number of status fetches performed. -/
def generate_music (submit : SubmitResponse) (fetches : Nat → FetchResponse) :
    Except SunoError FetchData × Nat :=
  if submit.code = "success" ∧ strTruthy submit.data then
    pollFrom fetches 1 max_attempts
  else
    (.error (.submissionError "Task submission failed"), 0)

/-! ## The `retry` decorator (`from retry import retry`)

`@retry(tries=3, delay=5, backoff=2)` re-invokes the decorated function on
any exception: after each failed attempt except the last it sleeps the
current delay and multiplies it by `backoff`; after the last it re-raises.
`retryExec op backoff tries delay i` runs attempts `i, i+1, ...` of `op`,
returning the final result, the number of attempts performed and the list
of waits (in seconds) slept between attempts. The source only ever uses
`tries ≥ 1`; `tries = 0` is modelled as a single attempt. -/
def retryExec {ε α : Type} (op : Nat → Except ε α) (backoff : Nat) :
    Nat → Nat → Nat → Except ε α × Nat × List Nat
  | 0, _, i => (op i, 1, [])
  | 1, _, i => (op i, 1, [])
  | t + 2, d, i =>
    match op i with
    | .ok a => (.ok a, 1, [])
    | .error _ =>
      let rest := retryExec op backoff (t + 1) (d * backoff) (i + 1)
      (rest.1, rest.2.1 + 1, d :: rest.2.2)

/-- `generate_music` as actually called: decorated with
`@retry(tries=3, delay=5, backoff=2)` (suno.py:27). Attempt `i` of the
whole submit-and-poll workflow uses the oracles `submits i` / `fetches i`.
Returns (result, number of workflow attempts, waits slept between them). -/
def generate_music_retried (submits : Nat → SubmitResponse)
    (fetches : Nat → Nat → FetchResponse) :
    Except SunoError FetchData × Nat × List Nat :=
  retryExec (fun i => (generate_music (submits i) (fetches i)).1) 2 3 5 0

/-- Audio-URL extraction of `generate_and_download` (suno.py:168-180):
`clips[0].audio_url` when `clips` is present and non-empty, else the
top-level `audio_url` when that key is present, else `data[0].audio_url`
when `data` is present and non-empty. -/
def extract_audio_url (d : FetchData) : Option String :=
  match d.clips with
  | some (c :: _) => c.audio_url
  | _ =>
    match d.audio_url with
    | some u => some u
    | none =>
      match d.dataArr with
      | some (c :: _) => c.audio_url
      | _ => none

/-- `SunoAPI.generate_and_download` (suno.py:151-189): run the retried
`generate_music`, then extract the audio URL, raising the
`ValueError("No audio URL in response data")` when `audio_url` is falsy
(suno.py:182-184). The final `download_audio` call streams bytes to disk
with no further decision logic and is elided; on success the audio URL is
returned. The attempt count and waits of the workflow retry are passed
through. -/
def generate_and_download (submits : Nat → SubmitResponse)
    (fetches : Nat → Nat → FetchResponse) :
    Except SunoError String × Nat × List Nat :=
  let r := generate_music_retried submits fetches
  match r.1 with
  | .error e => (.error e, r.2)
  | .ok d =>
    match extract_audio_url d with
    | some u =>
      if u = "" then (.error (.malformedResult "No audio URL in response data"), r.2)
      else (.ok u, r.2)
    | none => (.error (.malformedResult "No audio URL in response data"), r.2)

/-! ## WakeLock (`src/wake_lock.py`)

`WakeLock` instances carry `lock_name`, `is_locked` (initially `False`) and
`is_windows` (`platform.system() == "Windows"`). `acquire`/`release` call
`ctypes.windll.kernel32.SetThreadExecutionState`; the outcome of that call
is modelled by an oracle. -/

/-- Outcome of a `SetThreadExecutionState` call: `ok b` returned a value of
truthiness `b`, `exn` raised an exception (caught by the `try/except`). -/
inductive ApiCall where
  | ok (result : Bool)
  | exn
deriving Repr, DecidableEq

/-- The fields of a `WakeLock` instance (wake_lock.py:25-28). -/
structure WakeLock where
  lock_name : String
  is_locked : Bool
  is_windows : Bool
deriving Repr, DecidableEq

/-- `WakeLock.__init__` (wake_lock.py:25-28): `is_locked = False`. -/
def WakeLock.init (name : String) (isWin : Bool) : WakeLock :=
  { lock_name := name, is_locked := false, is_windows := isWin }

/-- `WakeLock.acquire` (wake_lock.py:33-59): no-op off Windows, no-op when
already locked; otherwise the API call sets `is_locked` only when its
result is truthy, and an exception leaves the state unchanged. -/
def WakeLock.acquire (st : WakeLock) (api : ApiCall) : WakeLock :=
  if !st.is_windows then st
  else if st.is_locked then st
  else
    match api with
    | .ok true => { st with is_locked := true }
    | .ok false => st
    | .exn => st

/-- `WakeLock.release` (wake_lock.py:61-86): no-op off Windows, no-op when
not locked; otherwise `is_locked` is set to `False` whatever the API call
does (`if result or True:` at wake_lock.py:77, and the `except` branch at
wake_lock.py:84-86 also clears it). -/
def WakeLock.release (st : WakeLock) (api : ApiCall) : WakeLock :=
  if !st.is_windows then st
  else if !st.is_locked then st
  else
    match api with
    | .ok _ => { st with is_locked := false }
    | .exn => { st with is_locked := false }

/-- `WakeLock.is_active` (wake_lock.py:98-100). -/
def WakeLock.is_active (st : WakeLock) : Bool := st.is_locked

/-- States reachable through the class API satisfy: a non-Windows lock is
never marked locked (only `acquire` sets `is_locked`, and it returns first
off Windows). -/
def WakeLock.Reachable (st : WakeLock) : Prop :=
  st.is_windows = false → st.is_locked = false

/-! ## Pipeline orchestrator (`src/main.py`)

`run_pipeline` sequences: music (`generate_and_download`), assets
(`generate_complete_assets`), mux (`create_video_from_audio`), upload
(`upload_complete_video`), then writes `metadata_{timestamp_id}.json`.
Each step is an external call modelled by its outcome: `Except msg value`
(an `error` is the exception the call raised). The local JSON write at
main.py:220-222 is modelled as succeeding. -/

/-- The metadata dictionary returned by
`OpenAIGenerator.generate_complete_assets` (keys read by `run_pipeline`). -/
structure VideoMetadata where
  title : String
  description : String
  tags : List String
  thumbnail_prompt : String
deriving Repr, DecidableEq

/-- Result of `YouTubeUploader.upload_complete_video`
(youtube_upload.py:214-217). -/
structure UploadResult where
  video_id : String
  video_url : String
deriving Repr, DecidableEq

/-- The `complete_metadata` record written to
`metadata_{timestamp_id}.json` (main.py:204-218); path and timestamp
fields that are pure formatting are elided. -/
structure RunRecord where
  timestamp_id : String
  music_prompt : String
  title : String
  description : String
  tags : List String
  video_id : String
  video_url : String
deriving Repr, DecidableEq

/-- The metadata directory as a store: the list of records persisted, in
write order. `metadata_{ts}.json` exists iff a record with that
`timestamp_id` is in the store. -/
def recordExists (ts : String) (store : List RunRecord) : Bool :=
  store.any (fun r => r.timestamp_id == ts)

/-- `LoFiAutomation.check_duplicate` (main.py:92-95): existence of
`metadata_{timestamp_id}.json`. -/
def check_duplicate (ts : String) (store : List RunRecord) : Bool :=
  recordExists ts store

/-- Names of the external pipeline steps of `run_pipeline`
(main.py:176-222), in execution order. -/
inductive StepName where
  | music
  | assets
  | mux
  | upload
  | persist
deriving Repr, DecidableEq

/-- Events observable during one `run_pipeline` call: the wake-lock
acquire (main.py:165), each step that starts executing, and the wake-lock
release in the `finally` block (main.py:238). -/
inductive PipeEvent where
  | lockAcquire
  | step (s : StepName)
  | lockRelease
deriving Repr, DecidableEq

/-- Outcomes of the external steps of one run: `music` is
`SunoAPI.generate_and_download` (audio written to `audio_path`), `assets`
is `OpenAIGenerator.generate_complete_assets`, `mux` is
`create_video_from_audio`, `upload` is
`YouTubeUploader.upload_complete_video`. An `error msg` is the exception
that call raised. -/
structure StepResults where
  music : Except String Unit
  assets : Except String VideoMetadata
  mux : Except String Unit
  upload : Except String UploadResult
deriving Repr

/-- All four external steps succeed. -/
def StepResults.allOk (s : StepResults) : Prop :=
  (∃ u, s.music = .ok u) ∧ (∃ m, s.assets = .ok m) ∧
    (∃ u, s.mux = .ok u) ∧ (∃ r, s.upload = .ok r)

/-- Result of `run_pipeline`: `skipped` is the early `return None` on a
duplicate (main.py:155-157), `success` returns `complete_metadata`
(main.py:231), `failure` is the re-raised exception (main.py:233-235). -/
inductive RunOutcome where
  | skipped
  | success (r : RunRecord)
  | failure (e : String)
deriving Repr, DecidableEq

/-- The `try` body of `run_pipeline` (main.py:167-231): run the steps in
order, stopping at the first exception; on full success append the
`complete_metadata` record to the store. Returns the outcome, the updated
store, and the list of steps that started executing. -/
def pipelineBody (ts prompt : String) (store : List RunRecord)
    (steps : StepResults) : RunOutcome × List RunRecord × List StepName :=
  match steps.music with
  | .error e => (.failure e, store, [.music])
  | .ok _ =>
    match steps.assets with
    | .error e => (.failure e, store, [.music, .assets])
    | .ok md =>
      match steps.mux with
      | .error e => (.failure e, store, [.music, .assets, .mux])
      | .ok _ =>
        match steps.upload with
        | .error e => (.failure e, store, [.music, .assets, .mux, .upload])
        | .ok up =>
          let r : RunRecord :=
            { timestamp_id := ts, music_prompt := prompt,
              title := md.title, description := md.description,
              tags := md.tags, video_id := up.video_id,
              video_url := up.video_url }
          (.success r, store ++ [r], [.music, .assets, .mux, .upload, .persist])

/-- `LoFiAutomation.run_pipeline` (main.py:141-238) for a run with
identifier `ts` (the value `generate_timestamp_id` returned): duplicate
check first (main.py:155-157), then wake-lock acquire, the step sequence,
and the `finally` release. Returns the outcome, the updated store, and
the event trace. -/
def run_pipeline (ts prompt : String) (store : List RunRecord)
    (steps : StepResults) : RunOutcome × List RunRecord × List PipeEvent :=
  if check_duplicate ts store then (.skipped, store, [])
  else
    let body := pipelineBody ts prompt store steps
    (body.1, body.2.1,
      .lockAcquire :: (body.2.2.map .step ++ [.lockRelease]))

/-- Replay the wake-lock transitions of an event trace on the fresh
`WakeLock("LoFiAutomation-Pipeline")` created at main.py:164, with the
`SetThreadExecutionState` outcomes `aApi` (for acquire) and `rApi` (for
release). -/
def lockStateAfter (isWin : Bool) (aApi rApi : ApiCall)
    (evts : List PipeEvent) : WakeLock :=
  evts.foldl
    (fun st e =>
      match e with
      | .lockAcquire => st.acquire aApi
      | .lockRelease => st.release rApi
      | .step _ => st)
    (WakeLock.init "LoFiAutomation-Pipeline" isWin)

/-! ## Batch runner (`LoFiAutomation.run_multiple`, main.py:240-279) -/

/-- The inputs of one batch iteration: the timestamp id
`generate_timestamp_id` produced at its start, the music prompt, and the
external step outcomes for that run. -/
structure RunSpec where
  ts : String
  prompt : String
  steps : StepResults
deriving Repr

/-- The batch counters and the store. -/
structure BatchResult where
  successful : Nat
  failed : Nat
  store : List RunRecord
deriving Repr, DecidableEq

/-- One iteration of the `for i in range(count)` loop (main.py:254-273):
`run_pipeline()` inside `try`; an exception increments `failed`, any
return (including the duplicate-skip `None`) increments `successful`.
The inter-run `time.sleep(delay_seconds)` has no observable effect here
and is elided. -/
def batchStep (acc : BatchResult) (rs : RunSpec) : BatchResult :=
  match (run_pipeline rs.ts rs.prompt acc.store rs.steps).1 with
  | .failure _ =>
    { acc with
      failed := acc.failed + 1
      store := (run_pipeline rs.ts rs.prompt acc.store rs.steps).2.1 }
  | _ =>
    { acc with
      successful := acc.successful + 1
      store := (run_pipeline rs.ts rs.prompt acc.store rs.steps).2.1 }

/-- `LoFiAutomation.run_multiple` (main.py:240-279): fold the batch step
over the per-iteration inputs, starting from `successful = failed = 0`. -/
def run_multiple (runs : List RunSpec) (store : List RunRecord) : BatchResult :=
  runs.foldl batchStep { successful := 0, failed := 0, store := store }

/-! ## Run identifier (`LoFiAutomation.generate_timestamp_id`, main.py:88-90)

`datetime.now().strftime('%Y%m%d_%H%M%S')`: wall-clock time at second
resolution, zero-padded fields. -/

/-- A wall-clock instant at second resolution (the fields `strftime`
reads). -/
structure DateTime where
  year : Nat
  month : Nat
  day : Nat
  hour : Nat
  minute : Nat
  second : Nat
deriving Repr, DecidableEq

/-- Field ranges of a real `datetime.now()` value (years of the Gregorian
present era, so that `%Y` prints exactly four digits). -/
def DateTime.Valid (t : DateTime) : Prop :=
  1000 ≤ t.year ∧ t.year ≤ 9999 ∧ 1 ≤ t.month ∧ t.month ≤ 12 ∧
    1 ≤ t.day ∧ t.day ≤ 31 ∧ t.hour ≤ 23 ∧ t.minute ≤ 59 ∧ t.second ≤ 59

/-- `t1` is chronologically earlier than or equal to `t2`: the usual
field-lexicographic order on (year, month, day, hour, minute, second). -/
def DateTime.earlierEq (t1 t2 : DateTime) : Prop :=
  t1.year < t2.year ∨ (t1.year = t2.year ∧
    (t1.month < t2.month ∨ (t1.month = t2.month ∧
      (t1.day < t2.day ∨ (t1.day = t2.day ∧
        (t1.hour < t2.hour ∨ (t1.hour = t2.hour ∧
          (t1.minute < t2.minute ∨ (t1.minute = t2.minute ∧
            t1.second ≤ t2.second)))))))))

/-- The last `w` decimal digits of `n`, zero-padded to width `w`, most
significant first (the behaviour of `%Y`/`%m`/`%d`/`%H`/`%M`/`%S` on
in-range values). -/
def digitsPad : Nat → Nat → List Char
  | 0, _ => []
  | w + 1, n => digitsPad w (n / 10) ++ [Nat.digitChar (n % 10)]

/-- The character list of `t.strftime('%Y%m%d_%H%M%S')`. -/
def fmtChars (t : DateTime) : List Char :=
  digitsPad 4 t.year ++ digitsPad 2 t.month ++ digitsPad 2 t.day ++
    '_' :: (digitsPad 2 t.hour ++ digitsPad 2 t.minute ++ digitsPad 2 t.second)

/-- `LoFiAutomation.generate_timestamp_id` (main.py:88-90) at instant `t`. -/
def generate_timestamp_id (t : DateTime) : String :=
  ⟨fmtChars t⟩

/-- The date part of the identifier as a number: `YYYYMMDD`. -/
def DateTime.dateKey (t : DateTime) : Nat :=
  (t.year * 100 + t.month) * 100 + t.day

/-- The time part of the identifier as a number: `HHMMSS`. -/
def DateTime.timeKey (t : DateTime) : Nat :=
  (t.hour * 100 + t.minute) * 100 + t.second

/-! ## Lemmas about the poll loop and the retry wrapper -/

theorem pollFrom_step_some (fetches : Nat → FetchResponse) (a r : Nat)
    (res : Except SunoError FetchData) (h : pollStep (fetches a) = some res) :
    pollFrom fetches a (r + 1) = (res, 1) := by
  simp [pollFrom, h]

theorem pollFrom_all_none (fetches : Nat → FetchResponse) :
    ∀ r a, (∀ k, a ≤ k → k < a + r → pollStep (fetches k) = none) →
      pollFrom fetches a r =
        (.error (.pollTimeout "Music generation timed out after 5 minutes"), r)
  | 0, _, _ => rfl
  | r + 1, a, h => by
    have h0 : pollStep (fetches a) = none := h a le_rfl (by omega)
    have ih :=
      pollFrom_all_none fetches r (a + 1) (fun k hk1 hk2 => h k (by omega) (by omega))
    simp [pollFrom, h0, ih]

/-! ## Theorems for the claims about `src/suno.py` -/

/-- C2: on a poll of the Job Poller (one `generate_music` invocation with a
successful submission), if the first status fetch reports the failure
status (the service's `status == 'error'`, the spec's abstract `failed`),
the poller raises the `GenerationError` carrying the service-reported
reason (`error_message`) immediately: exactly one status fetch is
performed. -/
theorem generation_error_on_first_fetch (submit : SubmitResponse)
    (fetches : Nat → FetchResponse) (d : FetchData)
    (hcode : submit.code = "success") (hdata : strTruthy submit.data = true)
    (hfc : (fetches 1).code = "success") (hfd : (fetches 1).data = some d)
    (hst : d.status = "error") :
    generate_music submit fetches =
      (.error (.generationError
        ("Music generation failed: " ++ d.error_message.getD "Unknown error")), 1) := by
  have hstep : pollStep (fetches 1) =
      some (.error (.generationError
        ("Music generation failed: " ++ d.error_message.getD "Unknown error"))) := by
    simp [pollStep, hfc, hfd, hst]
  unfold generate_music
  rw [if_pos ⟨hcode, hdata⟩]
  show pollFrom fetches 1 (59 + 1) = _
  exact pollFrom_step_some fetches 1 59 _ hstep

/-- Witness for C2: a concrete run whose first fetch reports
`status = 'error'` with `error_message = 'credits exhausted'`. -/
theorem generation_error_on_first_fetch_witness :
    generate_music ⟨"success", some "task-1"⟩
        (fun _ => ⟨"success",
          some ⟨"error", some "credits exhausted", none, none, none⟩⟩) =
      (.error (.generationError "Music generation failed: credits exhausted"), 1) :=
  generation_error_on_first_fetch _ _
    ⟨"error", some "credits exhausted", none, none, none⟩
    rfl rfl rfl rfl rfl

/-- C4: if none of the 60 configured fetch attempts observes a terminal
state (no iteration of the loop body returns or raises), the poller stops
after exactly `max_attempts = 60` fetches (at the fixed 5-second
interval) and raises `PollTimeoutError` instead of waiting unboundedly. -/
theorem poll_timeout_after_max_attempts (submit : SubmitResponse)
    (fetches : Nat → FetchResponse)
    (hcode : submit.code = "success") (hdata : strTruthy submit.data = true)
    (h : ∀ k, 1 ≤ k → k ≤ max_attempts → pollStep (fetches k) = none) :
    generate_music submit fetches =
      (.error (.pollTimeout "Music generation timed out after 5 minutes"),
        max_attempts) ∧
      max_attempts = 60 ∧ poll_interval = 5 := by
  refine ⟨?_, rfl, rfl⟩
  unfold generate_music
  rw [if_pos ⟨hcode, hdata⟩]
  exact pollFrom_all_none fetches max_attempts 1
    (fun k hk1 hk2 => h k hk1 (by revert hk2; unfold max_attempts; omega))

/-- Witness for C4: a service that answers `status = 'in_progress'`
forever. -/
theorem poll_timeout_after_max_attempts_witness :
    generate_music ⟨"success", some "task-2"⟩
        (fun _ => ⟨"success", some ⟨"in_progress", none, none, none, none⟩⟩) =
      (.error (.pollTimeout "Music generation timed out after 5 minutes"),
        max_attempts) ∧
      max_attempts = 60 ∧ poll_interval = 5 :=
  poll_timeout_after_max_attempts _ _ rfl rfl (fun _ _ _ => rfl)

/-- C5: the retry wrapper with `tries=3, delay=5, backoff=2` applied to an
operation failing on every invocation performs exactly 3 attempts, sleeps
`delay * backoff^(attempt-1)` after the first and second failures (5s,
then 10s), and propagates the error of the final attempt. -/
theorem retry_three_attempts {ε α : Type} (op : Nat → Except ε α)
    (errs : Nat → ε) (h : ∀ i, op i = .error (errs i)) :
    retryExec op 2 3 5 0 = (.error (errs 2), 3, [5 * 2 ^ 0, 5 * 2 ^ 1]) := by
  simp [retryExec, h 0, h 1, h 2]

/-- Witness for C5: the always-failing operation returning its attempt
index as the error. -/
theorem retry_three_attempts_witness :
    retryExec (fun i => (.error i : Except Nat Unit)) 2 3 5 0 =
      (.error 2, 3, [5 * 2 ^ 0, 5 * 2 ^ 1]) :=
  retry_three_attempts _ (fun i => i) (fun _ => rfl)

/-- C3 counterexample input: a submission that always succeeds and a fetch
endpoint that reports `status = 'error'` on the first fetch of every
workflow attempt. -/
def c3Submits : Nat → SubmitResponse := fun _ => ⟨"success", some "task-3"⟩

/-- C3 counterexample input, fetch oracle (see `c3Submits`). -/
def c3Fetches : Nat → Nat → FetchResponse :=
  fun _ _ => ⟨"success", some ⟨"error", some "quota", none, none, none⟩⟩

/-- C3 counterexample: a `GenerationError` arising inside the
submit-and-poll workflow is retried automatically *within* the run,
because `@retry(tries=3, delay=5, backoff=2)` (suno.py:27) decorates the
whole `generate_music` workflow, not the individual network calls: with a
service that fails generation immediately on every attempt, the decorated
call performs 3 full submit-and-poll cycles (not 1), sleeping 5s and 10s
between them, before the error propagates. -/
theorem workflow_error_locally_retried_counterexample :
    (generate_music_retried c3Submits c3Fetches).2.1 = 3 ∧
      (generate_music_retried c3Submits c3Fetches).2.1 ≠ 1 ∧
      (generate_music_retried c3Submits c3Fetches).2.2 = [5, 10] ∧
      (generate_music_retried c3Submits c3Fetches).1 =
        .error (.generationError "Music generation failed: quota") := by
  refine ⟨rfl, by decide, rfl, rfl⟩

/-- C3 amended: `SubmissionError`, `GenerationError` and `PollTimeoutError`
raised inside the submit-and-poll workflow ARE locally retried — the HTTP
retry wrapper is mounted around the whole `generate_music` workflow with
`tries=3, delay=5, backoff=2`, so when every workflow attempt fails, three
full submit-and-poll cycles run (waits 5s, 10s) and the third attempt's
error then propagates, fatal to the run; `MalformedResultError` is raised
by `generate_and_download` outside the wrapper, so a malformed result on a
successful first workflow attempt propagates without any further workflow
attempt. -/
theorem workflow_errors_retried_by_wrapper
    (submits : Nat → SubmitResponse) (fetches : Nat → Nat → FetchResponse)
    (errs : Nat → SunoError)
    (h : ∀ i, (generate_music (submits i) (fetches i)).1 = .error (errs i)) :
    generate_music_retried submits fetches = (.error (errs 2), 3, [5, 10]) ∧
      (∀ (s2 : Nat → SubmitResponse) (f2 : Nat → Nat → FetchResponse) d,
        (generate_music (s2 0) (f2 0)).1 = .ok d →
        extract_audio_url d = none →
        generate_and_download s2 f2 =
          (.error (.malformedResult "No audio URL in response data"), 1, [])) := by
  constructor
  · simp [generate_music_retried, retryExec, h 0, h 1, h 2]
  · intro s2 f2 d hok hurl
    have hr : generate_music_retried s2 f2 = (.ok d, 1, []) := by
      simp [generate_music_retried, retryExec, hok]
    simp [generate_and_download, hr, hurl]

/-- Witness for C3's amended theorem, at an always-timing-out service (all
fetches non-terminal) and, for the malformed-result part, a first-attempt
success whose payload carries no audio URL anywhere. -/
theorem workflow_errors_retried_by_wrapper_witness :
    generate_music_retried (fun _ => ⟨"success", some "task-4"⟩)
        (fun _ _ => ⟨"success", some ⟨"queued", none, none, none, none⟩⟩) =
      (.error (.pollTimeout "Music generation timed out after 5 minutes"),
        3, [5, 10]) ∧
      (∀ (s2 : Nat → SubmitResponse) (f2 : Nat → Nat → FetchResponse) d,
        (generate_music (s2 0) (f2 0)).1 = .ok d →
        extract_audio_url d = none →
        generate_and_download s2 f2 =
          (.error (.malformedResult "No audio URL in response data"), 1, [])) :=
  workflow_errors_retried_by_wrapper _ _
    (fun _ => .pollTimeout "Music generation timed out after 5 minutes")
    (fun _ => rfl)

/-! ## Theorems for the claims about `src/wake_lock.py` -/

/-- C10: on any API-reachable `WakeLock` state (a non-Windows lock is never
marked locked), (1) after `release` returns, `is_active` is `false` — for
every behaviour of the platform call, including a falsy result and a
raised exception; (2) `release` on a non-acquired lock is a no-op leaving
the state unchanged; (3) `acquire` on an already-acquired lock leaves the
state unchanged; and (4) a fresh instance is reachable and `acquire` /
`release` preserve reachability. -/
theorem wakeLock_release_acquire_invariants (st : WakeLock) (api : ApiCall)
    (hreach : st.Reachable) :
    (st.release api).is_active = false ∧
      (st.is_locked = false → st.release api = st) ∧
      (st.is_locked = true → st.acquire api = st) ∧
      (st.acquire api).Reachable ∧ (st.release api).Reachable ∧
      (∀ name isWin, (WakeLock.init name isWin).Reachable) := by
  obtain ⟨name, lk, w⟩ := st
  unfold WakeLock.Reachable at hreach
  simp only at hreach
  cases w
  · have hlk : lk = false := hreach rfl
    subst hlk
    cases api <;>
      simp [WakeLock.release, WakeLock.acquire, WakeLock.is_active,
        WakeLock.Reachable, WakeLock.init]
  · cases lk <;>
      rcases api with (_ | _) | _ <;>
        simp [WakeLock.release, WakeLock.acquire, WakeLock.is_active,
          WakeLock.Reachable, WakeLock.init]

/-- Witness for C10: an acquired Windows lock whose platform release call
raises. -/
theorem wakeLock_release_acquire_invariants_witness :
    (WakeLock.release ⟨"LoFiAutomation-Pipeline", true, true⟩ .exn).is_active
        = false ∧
      ((⟨"LoFiAutomation-Pipeline", true, true⟩ : WakeLock).is_locked = false →
        WakeLock.release ⟨"LoFiAutomation-Pipeline", true, true⟩ .exn =
          ⟨"LoFiAutomation-Pipeline", true, true⟩) ∧
      ((⟨"LoFiAutomation-Pipeline", true, true⟩ : WakeLock).is_locked = true →
        WakeLock.acquire ⟨"LoFiAutomation-Pipeline", true, true⟩ .exn =
          ⟨"LoFiAutomation-Pipeline", true, true⟩) ∧
      (WakeLock.acquire ⟨"LoFiAutomation-Pipeline", true, true⟩ .exn).Reachable ∧
      (WakeLock.release ⟨"LoFiAutomation-Pipeline", true, true⟩ .exn).Reachable ∧
      (∀ name isWin, (WakeLock.init name isWin).Reachable) :=
  wakeLock_release_acquire_invariants ⟨"LoFiAutomation-Pipeline", true, true⟩
    .exn (fun h => by simp at h)

/-! ## Theorems for the claims about `src/main.py` -/

/-- Spells out the step fold used by the wake-lock replay. -/
theorem lockStateAfter_on_trace (isWin : Bool) (aApi rApi : ApiCall)
    (names : List StepName) :
    lockStateAfter isWin aApi rApi
        (.lockAcquire :: (names.map .step ++ [.lockRelease])) =
      ((WakeLock.init "LoFiAutomation-Pipeline" isWin).acquire aApi).release
        rApi := by
  unfold lockStateAfter
  simp only [List.foldl_cons, List.foldl_append, List.foldl]
  generalize (WakeLock.init "LoFiAutomation-Pipeline" isWin).acquire aApi = st
  induction names generalizing st with
  | nil => rfl
  | cons n ns ih => simpa using ih st

/-- C7: for every non-duplicate pipeline run — whatever the outcomes of
the four external steps, success or exception — the event trace opens
with the wake-lock acquire, closes with the wake-lock release (the
`finally` of main.py:236-238), has no other lock event in between, and
replaying it on a fresh `WakeLock` leaves the lock inactive under every
behaviour of the platform sleep-prevention API. -/
theorem wake_lock_released_every_exit (ts prompt : String)
    (store : List RunRecord) (steps : StepResults)
    (hdup : check_duplicate ts store = false) :
    (run_pipeline ts prompt store steps).2.2 =
      .lockAcquire ::
        ((pipelineBody ts prompt store steps).2.2.map .step ++ [.lockRelease]) ∧
      (∀ isWin aApi rApi,
        (lockStateAfter isWin aApi rApi
          (run_pipeline ts prompt store steps).2.2).is_active = false) := by
  have htr : (run_pipeline ts prompt store steps).2.2 =
      .lockAcquire ::
        ((pipelineBody ts prompt store steps).2.2.map .step ++ [.lockRelease]) := by
    unfold run_pipeline
    rw [if_neg (by simp [hdup])]
  refine ⟨htr, fun isWin aApi rApi => ?_⟩
  rw [htr, lockStateAfter_on_trace]
  cases isWin <;> rcases aApi with (_ | _) | _ <;>
    rcases rApi with (_ | _) | _ <;> rfl

/-- Witness for C7: a run whose upload step raises; the trace still closes
with the release and the replayed lock ends inactive for, e.g., a Windows
host whose release call raises. -/
theorem wake_lock_released_every_exit_witness :
    (run_pipeline "20250101_000000" "p" []
        ⟨.ok (), .ok ⟨"T", "D", ["lofi"], "TP"⟩, .ok (),
          .error "Upload failed"⟩).2.2 =
      .lockAcquire ::
        ((pipelineBody "20250101_000000" "p" []
            ⟨.ok (), .ok ⟨"T", "D", ["lofi"], "TP"⟩, .ok (),
              .error "Upload failed"⟩).2.2.map .step ++ [.lockRelease]) ∧
      (∀ isWin aApi rApi,
        (lockStateAfter isWin aApi rApi
          (run_pipeline "20250101_000000" "p" []
            ⟨.ok (), .ok ⟨"T", "D", ["lofi"], "TP"⟩, .ok (),
              .error "Upload failed"⟩).2.2).is_active = false) :=
  wake_lock_released_every_exit "20250101_000000" "p" [] _ rfl

/-- On a non-duplicate run, `run_pipeline` is the `try` body wrapped in
the lock events. -/
theorem run_pipeline_not_dup (ts prompt : String) (store : List RunRecord)
    (steps : StepResults) (hdup : check_duplicate ts store = false) :
    run_pipeline ts prompt store steps =
      ((pipelineBody ts prompt store steps).1,
        (pipelineBody ts prompt store steps).2.1,
        .lockAcquire ::
          ((pipelineBody ts prompt store steps).2.2.map .step ++
            [.lockRelease])) := by
  unfold run_pipeline
  rw [if_neg (by simp [hdup])]

/-- The `try` body never yields the duplicate-skip outcome. -/
theorem pipelineBody_not_skipped (ts prompt : String)
    (store : List RunRecord) (steps : StepResults) :
    (pipelineBody ts prompt store steps).1 ≠ RunOutcome.skipped := by
  obtain ⟨m, a, x, u⟩ := steps
  rcases m with e1 | v1 <;> rcases a with e2 | md <;> rcases x with e3 | v3 <;>
    rcases u with e4 | up <;> simp [pipelineBody]

/-- C1: for every non-duplicate pipeline run, a `RunRecord` keyed by the
run's `timestamp_id` is appended to the store iff all four external steps
(music job, asset generation, video mux, upload) succeed; any step's
exception leaves the store unchanged; and in particular an upload that
throws leaves no record for that `run_id`. -/
theorem runrecord_iff_pipeline_success (ts prompt : String)
    (store : List RunRecord) (steps : StepResults)
    (hdup : check_duplicate ts store = false) :
    ((∃ r, (run_pipeline ts prompt store steps).1 = .success r ∧
        (run_pipeline ts prompt store steps).2.1 = store ++ [r] ∧
        r.timestamp_id = ts) ↔ steps.allOk) ∧
      (∀ e, (run_pipeline ts prompt store steps).1 = .failure e →
        (run_pipeline ts prompt store steps).2.1 = store) ∧
      ((∃ e, steps.upload = .error e) →
        recordExists ts (run_pipeline ts prompt store steps).2.1 = false) := by
  rw [run_pipeline_not_dup ts prompt store steps hdup]
  have hrec : recordExists ts store = false := hdup
  obtain ⟨m, a, x, u⟩ := steps
  rcases m with e | v1 <;> rcases a with e2 | md <;> rcases x with e3 | v3 <;>
    rcases u with e4 | up <;>
    simp_all [pipelineBody, StepResults.allOk, check_duplicate, recordExists]

/-- Witness for C1: a run in which `upload_complete_video` raises; no
record is written and the store is unchanged. -/
theorem runrecord_iff_pipeline_success_witness :
    ((∃ r, (run_pipeline "20250101_000001" "p" []
          ⟨.ok (), .ok ⟨"T", "D", ["lofi"], "TP"⟩, .ok (),
            .error "Upload failed"⟩).1 = .success r ∧
        (run_pipeline "20250101_000001" "p" []
          ⟨.ok (), .ok ⟨"T", "D", ["lofi"], "TP"⟩, .ok (),
            .error "Upload failed"⟩).2.1 = [] ++ [r] ∧
        r.timestamp_id = "20250101_000001") ↔
      StepResults.allOk ⟨.ok (), .ok ⟨"T", "D", ["lofi"], "TP"⟩, .ok (),
        .error "Upload failed"⟩) ∧
      (∀ e, (run_pipeline "20250101_000001" "p" []
          ⟨.ok (), .ok ⟨"T", "D", ["lofi"], "TP"⟩, .ok (),
            .error "Upload failed"⟩).1 = .failure e →
        (run_pipeline "20250101_000001" "p" []
          ⟨.ok (), .ok ⟨"T", "D", ["lofi"], "TP"⟩, .ok (),
            .error "Upload failed"⟩).2.1 = []) ∧
      ((∃ e, (⟨.ok (), .ok ⟨"T", "D", ["lofi"], "TP"⟩, .ok (),
            .error "Upload failed"⟩ : StepResults).upload = .error e) →
        recordExists "20250101_000001"
          (run_pipeline "20250101_000001" "p" []
            ⟨.ok (), .ok ⟨"T", "D", ["lofi"], "TP"⟩, .ok (),
              .error "Upload failed"⟩).2.1 = false) :=
  runrecord_iff_pipeline_success "20250101_000001" "p" [] _ rfl

/-- The counters of the batch fold, relative to the accumulator. -/
theorem batch_fold_counts (runs : List RunSpec) :
    ∀ acc : BatchResult,
      (runs.foldl batchStep acc).successful + (runs.foldl batchStep acc).failed =
        acc.successful + acc.failed + runs.length := by
  induction runs with
  | nil => intro acc; simp
  | cons rs rest ih =>
    intro acc
    rw [List.foldl_cons, ih]
    unfold batchStep
    split <;> simp [List.length_cons] <;> omega

/-- C6 concrete scenario: three batch iterations with distinct run ids;
run 2's upload raises, runs 1 and 3 succeed end to end. -/
def c6Runs : List RunSpec :=
  [⟨"20250101_000001", "p1",
      ⟨.ok (), .ok ⟨"T1", "D1", ["lofi"], "TP1"⟩, .ok (), .ok ⟨"yt1", "u1"⟩⟩⟩,
   ⟨"20250101_000002", "p2",
      ⟨.ok (), .ok ⟨"T2", "D2", ["lofi"], "TP2"⟩, .ok (),
        .error "Upload failed"⟩⟩,
   ⟨"20250101_000003", "p3",
      ⟨.ok (), .ok ⟨"T3", "D3", ["lofi"], "TP3"⟩, .ok (), .ok ⟨"yt3", "u3"⟩⟩⟩]

/-- C6: the batch runner catches and counts each run's failure and keeps
going: for every batch, `successful + failed` equals the number of runs
(no failure aborts the batch); and in the concrete 3-run batch whose
second run fails at upload, the final report is `successful = 2`,
`failed = 1`, and exactly 2 records are in the store. -/
theorem batch_counts_and_continues :
    (∀ (runs : List RunSpec) (store : List RunRecord),
        (run_multiple runs store).successful + (run_multiple runs store).failed
          = runs.length) ∧
      (run_multiple c6Runs []).successful = 2 ∧
      (run_multiple c6Runs []).failed = 1 ∧
      (run_multiple c6Runs []).store.length = 2 ∧
      (run_multiple c6Runs []).store.map (fun r => r.timestamp_id) =
        ["20250101_000001", "20250101_000003"] := by
  refine ⟨fun runs store => ?_, by decide, by decide, by decide, by decide⟩
  unfold run_multiple
  rw [batch_fold_counts]
  simp

/-- C8 counterexample inputs: two starts with the same run id
`"20251012_120000"`; the first fails at upload. -/
def c8FailSteps : StepResults :=
  ⟨.ok (), .ok ⟨"T", "D", ["lofi"], "TP"⟩, .ok (), .error "Upload failed"⟩

/-- C8 counterexample inputs: the second start's steps, all succeeding. -/
def c8OkSteps : StepResults :=
  ⟨.ok (), .ok ⟨"T", "D", ["lofi"], "TP"⟩, .ok (), .ok ⟨"yt1", "u1"⟩⟩

/-- C8 counterexample: two starts collide on run id `"20251012_120000"`,
but because the first run failed (upload raised) no record was persisted,
so the second start is NOT detected as a duplicate: it is not skipped and
it executes all pipeline steps. -/
theorem colliding_start_not_always_skipped :
    (run_pipeline "20251012_120000" "p" [] c8FailSteps).1 =
        .failure "Upload failed" ∧
      (run_pipeline "20251012_120000" "p"
          (run_pipeline "20251012_120000" "p" [] c8FailSteps).2.1
          c8OkSteps).1 ≠ .skipped ∧
      (run_pipeline "20251012_120000" "p"
          (run_pipeline "20251012_120000" "p" [] c8FailSteps).2.1
          c8OkSteps).2.2.filter
          (fun e => match e with | .step _ => true | _ => false) =
        [.step .music, .step .assets, .step .mux, .step .upload,
          .step .persist] := by
  refine ⟨rfl, by decide, rfl⟩

/-- C8 amended: the second of two colliding starts is skipped (executing
none of the pipeline steps, store unchanged) exactly when a record for
that run id has been persisted — in particular whenever the first
colliding run succeeded; when the first run failed, no record exists and
the second start is not skipped. -/
theorem colliding_start_skipped_iff_record (ts p1 p2 : String)
    (store : List RunRecord) (steps1 steps2 : StepResults)
    (hdup : check_duplicate ts store = false) :
    (steps1.allOk →
        run_pipeline ts p2 (run_pipeline ts p1 store steps1).2.1 steps2 =
          (.skipped, (run_pipeline ts p1 store steps1).2.1, [])) ∧
      (∀ e, (run_pipeline ts p1 store steps1).1 = .failure e →
        (run_pipeline ts p2 (run_pipeline ts p1 store steps1).2.1
            steps2).1 ≠ .skipped) := by
  rw [run_pipeline_not_dup ts p1 store steps1 hdup]
  constructor
  · rintro ⟨⟨u1, hm⟩, ⟨m2, ha⟩, ⟨u3, hx⟩, ⟨r4, hu⟩⟩
    obtain ⟨m, a, x, u⟩ := steps1
    simp only at hm ha hx hu
    subst hm ha hx hu
    simp [pipelineBody, run_pipeline, check_duplicate, recordExists]
  · intro e hfail
    obtain ⟨m, a, x, u⟩ := steps1
    rcases m with e1 | v1 <;> rcases a with e2 | md <;>
      rcases x with e3 | v3 <;> rcases u with e4 | up <;>
      simp_all [pipelineBody] <;>
      · rw [run_pipeline_not_dup ts p2 store steps2 hdup]
        exact pipelineBody_not_skipped ts p2 store steps2

/-- Witness for C8's amended theorem: first start succeeds, the second
start with the same id is skipped; and (vacuously instantiable) the
failure branch. -/
theorem colliding_start_skipped_iff_record_witness :
    ((c8OkSteps).allOk →
        run_pipeline "20251012_120000" "q"
            (run_pipeline "20251012_120000" "p" [] c8OkSteps).2.1 c8FailSteps =
          (.skipped, (run_pipeline "20251012_120000" "p" [] c8OkSteps).2.1,
            [])) ∧
      (∀ e, (run_pipeline "20251012_120000" "p" [] c8OkSteps).1 = .failure e →
        (run_pipeline "20251012_120000" "q"
            (run_pipeline "20251012_120000" "p" [] c8OkSteps).2.1
            c8FailSteps).1 ≠ .skipped) :=
  colliding_start_skipped_iff_record "20251012_120000" "p" "q" [] c8OkSteps
    c8FailSteps rfl

/-! ## Lemmas for the run identifier (C9) -/

theorem digitsPad_succ (w n : Nat) :
    digitsPad (w + 1) n = digitsPad w (n / 10) ++ [Nat.digitChar (n % 10)] :=
  rfl

theorem digitsPad_length (w : Nat) : ∀ n, (digitsPad w n).length = w := by
  induction w with
  | zero => intro n; rfl
  | succ w ih => intro n; simp [digitsPad_succ, ih]

theorem digitChar_of_lt_ten_isDigit :
    ∀ m, m < 10 → (Nat.digitChar m).isDigit = true := by decide

theorem digitChar_lt_of_lt :
    ∀ m, m < 10 → ∀ k, k < 10 → m < k → Nat.digitChar m < Nat.digitChar k := by
  decide

theorem digitsPad_isDigit (w : Nat) :
    ∀ n, ∀ c ∈ digitsPad w n, c.isDigit = true := by
  induction w with
  | zero => intro n c hc; simp [digitsPad] at hc
  | succ w ih =>
    intro n c hc
    rw [digitsPad_succ] at hc
    rcases List.mem_append.mp hc with h | h
    · exact ih _ c h
    · rcases List.mem_singleton.mp h with rfl
      exact digitChar_of_lt_ten_isDigit _ (Nat.mod_lt _ (by norm_num))

theorem lex_append_of_lex {r : Char → Char → Prop} {l1 l2 : List Char}
    (h : List.Lex r l1 l2) :
    l1.length = l2.length → ∀ s1 s2, List.Lex r (l1 ++ s1) (l2 ++ s2) := by
  induction h with
  | nil => intro hlen; simp at hlen
  | cons h ih =>
    intro hlen s1 s2
    exact .cons (ih (by simpa using hlen) s1 s2)
  | rel h => intro _ s1 s2; exact .rel h

theorem lex_append_same {r : Char → Char → Prop} (l : List Char)
    {s1 s2 : List Char} (h : List.Lex r s1 s2) :
    List.Lex r (l ++ s1) (l ++ s2) := by
  induction l with
  | nil => simpa using h
  | cons a tl ih => exact .cons ih

theorem digitsPad_lex_lt {w : Nat} :
    ∀ {n1 n2 : Nat}, n1 < n2 → n2 < 10 ^ w →
      List.Lex (· < ·) (digitsPad w n1) (digitsPad w n2) := by
  induction w with
  | zero => intro n1 n2 h12 h2; simp at h2; omega
  | succ w ih =>
    intro n1 n2 h12 h2
    have hq : n1 / 10 ≤ n2 / 10 := Nat.div_le_div_right (le_of_lt h12)
    rcases lt_or_eq_of_le hq with hlt | heq
    · have hq2 : n2 / 10 < 10 ^ w := by
        rw [Nat.div_lt_iff_lt_mul (by norm_num)]
        calc n2 < 10 ^ (w + 1) := h2
          _ = 10 ^ w * 10 := by ring
      rw [digitsPad_succ, digitsPad_succ]
      exact lex_append_of_lex (ih hlt hq2)
        (by simp [digitsPad_length]) _ _
    · have hm : n1 % 10 < n2 % 10 := by
        have e1 := Nat.div_add_mod n1 10
        have e2 := Nat.div_add_mod n2 10
        omega
      rw [digitsPad_succ, digitsPad_succ, heq]
      exact lex_append_same _
        (.rel (digitChar_lt_of_lt _ (Nat.mod_lt _ (by norm_num)) _
          (Nat.mod_lt _ (by norm_num)) hm))

theorem digitsPad_split (a : Nat) :
    ∀ (b m n : Nat), n < 10 ^ b →
      digitsPad (a + b) (m * 10 ^ b + n) = digitsPad a m ++ digitsPad b n := by
  intro b
  induction b with
  | zero =>
    intro m n hn
    have hn0 : n = 0 := by simpa using hn
    subst hn0
    simp [digitsPad]
  | succ b ih =>
    intro m n hn
    have hsplit : m * 10 ^ (b + 1) = m * 10 ^ b * 10 := by ring
    have hdiv : (m * 10 ^ (b + 1) + n) / 10 = m * 10 ^ b + n / 10 := by
      rw [hsplit]
      generalize m * 10 ^ b = y
      omega
    have hmod : (m * 10 ^ (b + 1) + n) % 10 = n % 10 := by
      rw [hsplit]
      generalize m * 10 ^ b = y
      omega
    have hn10 : n / 10 < 10 ^ b := by
      have h10 : (10 : Nat) ^ (b + 1) = 10 ^ b * 10 := by ring
      rw [h10] at hn
      generalize hy : (10 : Nat) ^ b = y at hn
      omega
    have haddb : a + (b + 1) = (a + b) + 1 := by omega
    rw [haddb, digitsPad_succ, digitsPad_succ, hdiv, hmod, ih m (n / 10) hn10,
      List.append_assoc]

theorem dateKey_lt_bound {t : DateTime} (hv : t.Valid) :
    t.dateKey < 10 ^ 8 := by
  obtain ⟨h1, h2, h3, h4, h5, h6, h7, h8, h9⟩ := hv
  unfold DateTime.dateKey
  norm_num
  omega

theorem timeKey_lt_bound {t : DateTime} (hv : t.Valid) :
    t.timeKey < 10 ^ 6 := by
  obtain ⟨h1, h2, h3, h4, h5, h6, h7, h8, h9⟩ := hv
  unfold DateTime.timeKey
  norm_num
  omega

theorem fmtChars_eq_keys (t : DateTime) (hv : t.Valid) :
    fmtChars t = digitsPad 8 t.dateKey ++ '_' :: digitsPad 6 t.timeKey := by
  obtain ⟨h1, h2, h3, h4, h5, h6, h7, h8, h9⟩ := hv
  have hmo : t.month < 10 ^ 2 := by norm_num; omega
  have hd : t.day < 10 ^ 2 := by norm_num; omega
  have hmi : t.minute < 10 ^ 2 := by norm_num; omega
  have hs : t.second < 10 ^ 2 := by norm_num; omega
  have e1 : digitsPad 8 t.dateKey =
      digitsPad 6 (t.year * 100 + t.month) ++ digitsPad 2 t.day := by
    have h := digitsPad_split 6 2 (t.year * 100 + t.month) t.day hd
    norm_num at h
    exact h
  have e2 : digitsPad 6 (t.year * 100 + t.month) =
      digitsPad 4 t.year ++ digitsPad 2 t.month := by
    have h := digitsPad_split 4 2 t.year t.month hmo
    norm_num at h
    exact h
  have e3 : digitsPad 6 t.timeKey =
      digitsPad 4 (t.hour * 100 + t.minute) ++ digitsPad 2 t.second := by
    have h := digitsPad_split 4 2 (t.hour * 100 + t.minute) t.second hs
    norm_num at h
    exact h
  have e4 : digitsPad 4 (t.hour * 100 + t.minute) =
      digitsPad 2 t.hour ++ digitsPad 2 t.minute := by
    have h := digitsPad_split 2 2 t.hour t.minute hmi
    norm_num at h
    exact h
  unfold fmtChars
  rw [e1, e2, e3, e4]

theorem fmtChars_lex_lt {t1 t2 : DateTime} (v1 : t1.Valid) (v2 : t2.Valid)
    (h : t1.dateKey * 1000000 + t1.timeKey <
      t2.dateKey * 1000000 + t2.timeKey) :
    List.Lex (· < ·) (fmtChars t1) (fmtChars t2) := by
  rw [fmtChars_eq_keys t1 v1, fmtChars_eq_keys t2 v2]
  have ht1 : t1.timeKey < 10 ^ 6 := timeKey_lt_bound v1
  have ht2 : t2.timeKey < 10 ^ 6 := timeKey_lt_bound v2
  norm_num at ht1 ht2
  rcases Nat.lt_or_ge t1.dateKey t2.dateKey with hd | hd
  · exact lex_append_of_lex (digitsPad_lex_lt hd (dateKey_lt_bound v2))
      (by simp [digitsPad_length]) _ _
  · have hdeq : t1.dateKey = t2.dateKey := by omega
    have htk : t1.timeKey < t2.timeKey := by omega
    rw [hdeq]
    exact lex_append_same _ (.cons (digitsPad_lex_lt htk (timeKey_lt_bound v2)))

theorem key_le_of_earlierEq {t1 t2 : DateTime} (v1 : t1.Valid) (v2 : t2.Valid)
    (h : t1.earlierEq t2) :
    t1.dateKey * 1000000 + t1.timeKey ≤ t2.dateKey * 1000000 + t2.timeKey := by
  obtain ⟨a1, a2, a3, a4, a5, a6, a7, a8, a9⟩ := v1
  obtain ⟨b1, b2, b3, b4, b5, b6, b7, b8, b9⟩ := v2
  unfold DateTime.earlierEq at h
  unfold DateTime.dateKey DateTime.timeKey
  omega

theorem fmtChars_eq_of_key_eq {t1 t2 : DateTime} (v1 : t1.Valid)
    (v2 : t2.Valid)
    (h : t1.dateKey * 1000000 + t1.timeKey =
      t2.dateKey * 1000000 + t2.timeKey) :
    fmtChars t1 = fmtChars t2 := by
  have ht1 : t1.timeKey < 10 ^ 6 := timeKey_lt_bound v1
  have ht2 : t2.timeKey < 10 ^ 6 := timeKey_lt_bound v2
  norm_num at ht1 ht2
  have hdeq : t1.dateKey = t2.dateKey := by omega
  have hteq : t1.timeKey = t2.timeKey := by omega
  rw [fmtChars_eq_keys t1 v1, fmtChars_eq_keys t2 v2, hdeq, hteq]

/-- C9: the run identifier `'%Y%m%d_%H%M%S'` is monotone in time under
lexicographic string order — for chronologically ordered instants `t1 ≤ t2`
(of valid wall-clock field ranges) the identifier of `t1` is `≤` the
identifier of `t2` as a string — and every character of the identifier is
a decimal digit or `'_'` (filesystem-safe). -/
theorem timestamp_id_sortable_and_safe (t1 t2 : DateTime)
    (v1 : t1.Valid) (v2 : t2.Valid) (h : t1.earlierEq t2) :
    generate_timestamp_id t1 ≤ generate_timestamp_id t2 ∧
      ∀ c ∈ (generate_timestamp_id t1).toList, c.isDigit = true ∨ c = '_' := by
  constructor
  · have hkey := key_le_of_earlierEq v1 v2 h
    rcases Nat.lt_or_ge (t1.dateKey * 1000000 + t1.timeKey)
        (t2.dateKey * 1000000 + t2.timeKey) with hlt | hge
    · have hlex := fmtChars_lex_lt v1 v2 hlt
      have hstr : generate_timestamp_id t1 < generate_timestamp_id t2 := by
        rw [String.lt_iff_toList_lt]
        exact hlex
      exact le_of_lt hstr
    · have hkeq : t1.dateKey * 1000000 + t1.timeKey =
          t2.dateKey * 1000000 + t2.timeKey := by omega
      have := fmtChars_eq_of_key_eq v1 v2 hkeq
      have hid : generate_timestamp_id t1 = generate_timestamp_id t2 := by
        unfold generate_timestamp_id
        rw [this]
      exact le_of_eq hid
  · intro c hc
    have hc2 : c ∈ fmtChars t1 := hc
    unfold fmtChars at hc2
    rcases List.mem_append.mp hc2 with h1 | h1
    · rcases List.mem_append.mp h1 with h2 | h2
      · rcases List.mem_append.mp h2 with h3 | h3
        · exact Or.inl (digitsPad_isDigit 4 _ c h3)
        · exact Or.inl (digitsPad_isDigit 2 _ c h3)
      · exact Or.inl (digitsPad_isDigit 2 _ c h2)
    · rcases List.mem_cons.mp h1 with h2 | h2
      · exact Or.inr h2
      · rcases List.mem_append.mp h2 with h3 | h3
        · rcases List.mem_append.mp h3 with h4 | h4
          · exact Or.inl (digitsPad_isDigit 2 _ c h4)
          · exact Or.inl (digitsPad_isDigit 2 _ c h4)
        · exact Or.inl (digitsPad_isDigit 2 _ c h3)

/-- Witness for C9: one second before noon precedes noon of the same day,
and the identifiers compare accordingly. -/
theorem timestamp_id_sortable_and_safe_witness :
    generate_timestamp_id ⟨2025, 10, 12, 11, 59, 59⟩ ≤
        generate_timestamp_id ⟨2025, 10, 12, 12, 0, 0⟩ ∧
      ∀ c ∈ (generate_timestamp_id ⟨2025, 10, 12, 11, 59, 59⟩).toList,
        c.isDigit = true ∨ c = '_' :=
  timestamp_id_sortable_and_safe ⟨2025, 10, 12, 11, 59, 59⟩
    ⟨2025, 10, 12, 12, 0, 0⟩
    (by refine ⟨by norm_num, by norm_num, by norm_num, by norm_num,
      by norm_num, by norm_num, by norm_num, by norm_num, by norm_num⟩)
    (by refine ⟨by norm_num, by norm_num, by norm_num, by norm_num,
      by norm_num, by norm_num, by norm_num, by norm_num, by norm_num⟩)
    (by unfold DateTime.earlierEq; norm_num)

end YtAuto
